import Mathlib

/-!
Verification of the NATS message-bus handler (`src/mbus/nats_handler.go`).

The Go code is shallowly embedded below.  External collaborators (the NATS
client, the settings service, JSON codecs, the platform) are abstracted as
function parameters; everything the handler itself computes (control flow,
subjects, error wrapping, audit severities, the certificate common-name
regular expression) is translated directly from the source.
-/

namespace Mbus

/-! ### Peer certificate verification (`natsHandler.VerifyPeerCertificate`)

The source calls `regexp.MatchString("^[a-zA-Z0-9*\\-]*.nats.bosh-internal$", cn)`.
In Go's RE2 syntax the two inner dots are unescaped, so each matches any
single character other than a newline.  The pattern is anchored, so a string
matches exactly when it decomposes as `w ++ [c1] ++ "nats" ++ [c2] ++
"bosh-internal"` with every character of `w` in the class `[a-zA-Z0-9*-]`
and `c1`, `c2` arbitrary non-newline characters.  `cnMatchL` decides exactly
that language by trying the tail at every position reachable through class
characters. -/

/-- Membership in the character class `[a-zA-Z0-9*-]` of the source pattern. -/
def isClassChar (c : Char) : Bool :=
  (('a' ≤ c) && (c ≤ 'z')) || (('A' ≤ c) && (c ≤ 'Z')) ||
  (('0' ≤ c) && (c ≤ '9')) || (c == '*') || (c == '-')

/-- What an unescaped `.` matches in Go RE2 default mode: any character except newline. -/
def isDotChar (c : Char) : Bool := c != '\n'

/-- The tail of the source pattern after the starred class: one any-character,
the literal `nats`, one any-character, the literal `bosh-internal`, end of string. -/
def certTailMatch (l : List Char) : Bool :=
  match l with
  | c1 :: 'n' :: 'a' :: 't' :: 's' :: c2 :: rest =>
      isDotChar c1 && isDotChar c2 && (rest == "bosh-internal".data)
  | _ => false

/-- Anchored match of the source pattern `^[a-zA-Z0-9*\-]*.nats.bosh-internal$`
against a character list: the tail may start after any prefix of class characters. -/
def cnMatchL : List Char → Bool
  | [] => false
  | c :: rest => certTailMatch (c :: rest) || (isClassChar c && cnMatchL rest)

/-- Whether a common name matches the regular expression used by
`VerifyPeerCertificate` in the source. -/
def cnMatch (s : String) : Bool := cnMatchL s.data

/-- The part of an x509 certificate that `VerifyPeerCertificate` inspects:
`chain[0].Subject.CommonName`. -/
structure Certificate where
  commonName : String
deriving DecidableEq

/-- Direct translation of `natsHandler.VerifyPeerCertificate`: scan the
verified chains in order, skip chains with zero certificates, succeed (`none`,
a nil error) on the first chain whose leaf common name matches the pattern,
and return the error after the loop otherwise. -/
def VerifyPeerCertificate : List (List Certificate) → Option String
  | [] => some "Server Certificate CommonName does not match *.nats.bosh-internal"
  | chain :: rest =>
    match chain with
    | [] => VerifyPeerCertificate rest
    | cert :: _ =>
      if cnMatch cert.commonName then none else VerifyPeerCertificate rest

/-- Follows the claim's wording, for comparison with the source: the same
pattern but with the dot before the trust domain matching only a literal `.`:
class characters, then a literal `.`, then `nats`, one any-character,
`bosh-internal`, end of string. -/
def claimedTailMatch (l : List Char) : Bool :=
  match l with
  | '.' :: 'n' :: 'a' :: 't' :: 's' :: c2 :: rest =>
      isDotChar c2 && (rest == "bosh-internal".data)
  | _ => false

/-- Follows the claim's wording: anchored match with the literal dot before
the trust domain. -/
def claimedCNMatchL : List Char → Bool
  | [] => false
  | c :: rest => claimedTailMatch (c :: rest) || (isClassChar c && claimedCNMatchL rest)

/-- Follows the claim's wording: match of the claimed pattern
`^[a-zA-Z0-9*-]*\.nats.bosh-internal$` against a common name. -/
def claimedCNMatch (s : String) : Bool := claimedCNMatchL s.data

/-! ### Requests, handlers and message dispatch -/

/-- Constant `responseMaxLength = 1024 * 1024` from the source. -/
def responseMaxLength : Nat := 1024 * 1024

/-- Constant `natsConnectionMaxRetries = 4` from the source. -/
def natsConnectionMaxRetries : Nat := 4

/-- An inbound NATS message: subject and raw payload bytes. -/
structure Message where
  subject : String
  payload : String
deriving DecidableEq

/-- The generic request decoded from an inbound payload; the dispatcher uses
its `reply_to` field as the reply subject. -/
structure Request where
  method : String
  replyTo : String
deriving DecidableEq

/-- Outcome of running a registered handler on a decoded request. -/
inductive FuncResult where
  | failed (err : String)
  | resp (body : String)
deriving DecidableEq

/-- A registered handler callback (`boshhandler.Func`): opaque to the core. -/
def Func := Request → FuncResult

/-- Result triple of `PerformHandlerWithJSON`: response bytes, decoded
request, error. -/
structure PerformOut where
  respBytes : String
  req : Request
  err : Option String
deriving DecidableEq

/-- Modelled from the spec: `boshhandler.PerformHandlerWithJSON` (handler
package, not under `src/`) decodes the payload as a generic request, runs the
handler, and caps the response at `maxLen` bytes — a larger response is a
processing failure, not silently truncated.  Decoding is abstracted as the
`decodeReq` parameter; decode failure and handler failure surface in `err`. -/
def performHandlerWithJSON (decodeReq : String → Option Request) (payload : String)
    (f : Func) (maxLen : Nat) : PerformOut :=
  match decodeReq payload with
  | none => ⟨"", ⟨"", ""⟩, some "Unmarshalling JSON payload"⟩
  | some req =>
    match f req with
    | FuncResult.failed e => ⟨"", req, some e⟩
    | FuncResult.resp body =>
      if maxLen < body.length then ⟨"", req, some "Response exceeded maximum allowed length"⟩
      else ⟨body, req, none⟩

/-- Observable effects of processing one handler invocation: publishes to the
NATS client (recording the outcome of the attempt) and calls to
`generateCEFLog` with a severity and status reason. -/
inductive Effect where
  | publish (subject : String) (payload : String) (pubError : Option String)
  | audit (severity : Nat) (statusReason : String)
deriving DecidableEq

/-- Direct translation of `natsHandler.handleNatsMsg`: run the handler via
`PerformHandlerWithJSON`; on error emit a severity-7 audit event carrying the
error text and stop; otherwise, when the response is non-empty, publish it to
the decoded request's reply-to subject (the publish outcome is supplied by
`pubErr`), emitting a severity-7 event and stopping if the publish fails; and
finally emit the severity-1 event.  -/
def handleNatsMsg (decodeReq : String → Option Request)
    (pubErr : String → String → Option String) (msg : Message) (f : Func) : List Effect :=
  let out := performHandlerWithJSON decodeReq msg.payload f responseMaxLength
  match out.err with
  | some e => [Effect.audit 7 e]
  | none =>
    if 0 < out.respBytes.length then
      match pubErr out.req.replyTo out.respBytes with
      | some e => [Effect.publish out.req.replyTo out.respBytes (some e), Effect.audit 7 e]
      | none => [Effect.publish out.req.replyTo out.respBytes none, Effect.audit 1 ""]
    else [Effect.audit 1 ""]

/-- The subscription callback installed by `Start`: it snapshots the handler
list and calls `handleNatsMsg` once for each registered handler, in order.
`dispatchTraces` records each invocation's effect list separately. -/
def dispatchTraces (decodeReq : String → Option Request)
    (pubErr : String → String → Option String) (msg : Message)
    (funcs : List Func) : List (List Effect) :=
  funcs.map (fun f => handleNatsMsg decodeReq pubErr msg f)

/-- The flat effect trace of the subscription callback on one inbound message. -/
def dispatchMessage (decodeReq : String → Option Request)
    (pubErr : String → String → Option String) (msg : Message)
    (funcs : List Func) : List Effect :=
  (dispatchTraces decodeReq pubErr msg funcs).flatten

/-- Number of audit events of a given severity in an effect trace. -/
def countSev (sev : Nat) (effs : List Effect) : Nat :=
  (effs.filter (fun e =>
    match e with
    | Effect.audit s _ => s == sev
    | _ => false)).length

/-- Direct translation of `natsHandler.RegisterAdditionalFunc`: append the
handler to the registry under the lock. -/
def RegisterAdditionalFunc (registry : List Func) (f : Func) : List Func :=
  registry ++ [f]

/-! ### Bounded retry (`boshretry.AttemptRetryStrategy`)

The strategy itself lives in `bosh-utils/retrystrategy`, outside `src/`; only
its two call sites are in the source.  It is modelled from the spec.  An
operation is a function from the attempt index to the pair returned by the Go
retryable: `(shouldRetry, error)`.  The result records the final error and
how many times the operation was invoked. -/

/-- Modelled from the spec: the attempt loop of `AttemptRetryStrategy.Try`
(bosh-utils, not under `src/`), starting at attempt index `i` with the given
number of remaining attempts.  It executes the operation; if the operation
signals retry and attempts remain it sleeps the fixed one-unit delay and
tries again; it stops at the first non-retry result (success or
non-retryable failure); when attempts are exhausted it returns the
operation's last error.  The second component counts invocations. -/
def attemptTryFrom (op : Nat → Bool × Option String) : Nat → Nat → Option String × Nat
  | _, 0 => (none, 0)
  | i, 1 => ((op i).snd, 1)
  | i, r + 2 =>
    if (op i).fst then
      let rest := attemptTryFrom op (i + 1) (r + 1)
      (rest.fst, rest.snd + 1)
    else ((op i).snd, 1)

/-- Modelled from the spec: `AttemptRetryStrategy.Try` with a bound of
`maxAttempts` attempts. -/
def attemptTry (op : Nat → Bool × Option String) (maxAttempts : Nat) : Option String × Nat :=
  attemptTryFrom op 0 maxAttempts

/-- Direct translation of the retryable wrapped around `client.Connect` in
`Start`: signals retry exactly when the connect attempt returns an error,
wrapping it as `Connecting to NATS`. -/
def natsRetryable (connectErr : Nat → Option String) (i : Nat) : Bool × Option String :=
  match connectErr i with
  | some e => (true, some ("Connecting to NATS: " ++ e))
  | none => (false, none)

/-- Direct translation of the retryable wrapped around `client.Publish` in
`Send`: signals retry exactly when the publish attempt returns an error,
wrapping it as `Publishing to NATS`. -/
def publishRetryable (pubAttemptErr : Nat → Option String) (i : Nat) : Bool × Option String :=
  match pubAttemptErr i with
  | some e => (true, some ("Publishing to NATS: " ++ e))
  | none => (false, none)

/-! ### Connection info (`natsHandler.getConnectionInfo`) -/

/-- Embedded user-info of the parsed mbus URL: `Userinfo.Username()` and
`Userinfo.Password()`, whose boolean "password set" flag is modelled by the
`Option`. -/
structure UserCreds where
  username : String
  password : Option String
deriving DecidableEq

/-- The fields of the parsed mbus URL that `getConnectionInfo` reads. -/
structure NatsURL where
  host : String
  user : Option UserCreds
deriving DecidableEq

/-- PEM material from `settings.Env.Bosh.Mbus.Cert`. -/
structure MbusCertData where
  ca : String
  certificate : String
  privateKey : String
deriving DecidableEq

/-- The `yagnats.ConnectionInfo` fields set by `getConnectionInfo`; the TLS
sub-structure is flattened to the booleans recording which parts were
installed. -/
structure ConnectionInfo where
  addr : String
  username : String
  password : String
  tlsConfigured : Bool
  certPoolSet : Bool
  verifyPeerSet : Bool
  clientCertSet : Bool
deriving DecidableEq

/-- Direct translation of `natsHandler.getConnectionInfo`.  URL parsing,
`AppendCertsFromPEM` and `tls.X509KeyPair` are external and abstracted as
parameters (`parsedURL` is `none` when `url.Parse` fails, `appendCertsOk`
tells whether the CA PEM loads, `keyPairOk` whether the client pair parses).
The control flow — addr from the host, the mutual-TLS branch, then the
user-info check that a password must be set — is the source's. -/
def getConnectionInfo (parsedURL : Option NatsURL) (mtlsEnabled : Bool)
    (cert : MbusCertData) (appendCertsOk : String → Bool)
    (keyPairOk : String → String → Bool) : Except String ConnectionInfo :=
  match parsedURL with
  | none => Except.error "Parsing Nats URL"
  | some natsURL =>
    let base : ConnectionInfo := ⟨natsURL.host, "", "", false, false, false, false⟩
    let afterTLS : Except String ConnectionInfo :=
      if mtlsEnabled then
        if cert.ca ≠ "" ∧ ¬ appendCertsOk cert.ca then
          Except.error "Failed to load Mbus CA cert"
        else if ¬ keyPairOk cert.certificate cert.privateKey then
          Except.error "Parsing certificate and private key"
        else
          Except.ok { base with tlsConfigured := true, certPoolSet := (cert.ca != ""), verifyPeerSet := true, clientCertSet := true }
      else Except.ok base
    match afterTLS with
    | Except.error e => Except.error e
    | Except.ok info =>
      match natsURL.user with
      | none => Except.ok info
      | some u =>
        match u.password with
        | none => Except.error "No password set for connection"
        | some pw => Except.ok { info with username := u.username, password := pw }

/-! ### Lifecycle: `Start` and `Send` -/

/-- Environment for one `Start` call: the resolved connection info (the
outcome of `getConnectionInfo` on the current settings), the per-attempt
outcome of `client.Connect`, the outcome of `client.Subscribe`, and the agent
identifier from the settings. -/
structure StartEnv where
  connInfo : Except String ConnectionInfo
  connectErr : Nat → Option String
  subscribeErr : Option String
  agentID : String

/-- What a `Start` call produced: the new handler registry, the number of
connect attempts made, and either the wrapped error or the subject that was
subscribed. -/
structure StartResult where
  registry : List Func
  connectAttempts : Nat
  outcome : Except String String

/-- Direct translation of `natsHandler.Start`: register the handler first
(line 88, before connection info is resolved), resolve connection info,
connect through `AttemptRetryStrategy` with `natsConnectionMaxRetries`
attempts, then subscribe to `agent.<agentID>`; each failure returns the
wrapped error, and in every case the registry keeps the appended handler. -/
def Start (env : StartEnv) (registry : List Func) (f : Func) : StartResult :=
  let reg := RegisterAdditionalFunc registry f
  match env.connInfo with
  | Except.error e => ⟨reg, 0, Except.error ("Getting connection info: " ++ e)⟩
  | Except.ok _ =>
    let r := attemptTry (natsRetryable env.connectErr) natsConnectionMaxRetries
    match r.fst with
    | some e => ⟨reg, r.snd, Except.error ("Connecting: " ++ e)⟩
    | none =>
      let subject := "agent." ++ env.agentID
      match env.subscribeErr with
      | some e => ⟨reg, r.snd, Except.error ("Subscribing to " ++ subject ++ ": " ++ e)⟩
      | none => ⟨reg, r.snd, Except.ok subject⟩

/-- Direct translation of `natsHandler.Send`: marshal the message (the JSON
encoder is external, so the already-marshalled bytes arrive as an `Option`
that is `none` on marshal failure), build the subject
`<target>.agent.<topic>.<agentID>`, and publish through
`AttemptRetryStrategy` with 3 attempts.  The result pairs the returned error
with the list of publishes attempted (each attempt publishes the same
subject and bytes). -/
def Send (marshalled : Option String) (agentID target topic : String)
    (pubAttemptErr : Nat → Option String) : Option String × List (String × String) :=
  match marshalled with
  | none => (some "Marshalling message", [])
  | some bytes =>
    let subject := target ++ ".agent." ++ topic ++ "." ++ agentID
    let r := attemptTry (publishRetryable pubAttemptErr) 3
    (r.fst, List.replicate r.snd (subject, bytes))

/-! ### Audit event generation (`natsHandler.generateCEFLog`) -/

/-- The argument tuple passed to `cef.ProduceNATSRequestEventLog`. -/
structure CEFInput where
  ip : String
  port : String
  replyTo : String
  method : String
  severity : Nat
  subject : String
  statusReason : String
deriving DecidableEq

/-- Outcome of one `generateCEFLog` call: a Go runtime panic from an
out-of-range slice index, a silent return with no event, or an event routed
to the error-level or debug-level audit sink. -/
inductive CEFOutcome where
  | panicked
  | noEvent
  | errEvent (cef : String) (input : CEFInput)
  | debugEvent (cef : String) (input : CEFInput)
deriving DecidableEq

/-- Behaviour of Go's `strings.Split(s, ":")` on the character list of `s`:
split at every colon; the empty string yields one empty field, so the result
is never empty. -/
def splitOnColon : List Char → List (List Char)
  | [] => [[]]
  | c :: rest =>
    let r := splitOnColon rest
    if c = ':' then [] :: r
    else
      match r with
      | [] => [[c]]
      | h :: t => (c :: h) :: t

/-- Direct translation of `natsHandler.generateCEFLog`.  `parseHost` models
`url.Parse` of the mbus URL (returning its `Host`); `decodeFields` models
`json.Unmarshal` of the payload into `(method, reply_to)`, whose failure is
logged and leaves the fields empty; `produceCEF` models
`cef.ProduceNATSRequestEventLog`, whose failure returns with no event.  The
source splits the host on `:` and indexes `hostSplit[1]` unconditionally, so
a host without a `:` makes the slice access panic.  Severity 7 goes to the
error audit sink, every other severity to the debug sink. -/
def generateCEFLog (parseHost : String → Option String) (mbusURL : String)
    (decodeFields : String → Option (String × String))
    (produceCEF : CEFInput → Option String)
    (msg : Message) (severity : Nat) (statusReason : String) : CEFOutcome :=
  match parseHost mbusURL with
  | none => CEFOutcome.noEvent
  | some host =>
    let hostSplit := splitOnColon host.data
    if hostSplit.length < 2 then CEFOutcome.panicked
    else
      let ip : String := ⟨hostSplit.headD []⟩
      let port : String := ⟨hostSplit.getD 1 []⟩
      let fields := (decodeFields msg.payload).getD ("", "")
      let input : CEFInput := ⟨ip, port, fields.snd, fields.fst, severity, msg.subject, statusReason⟩
      match produceCEF input with
      | none => CEFOutcome.noEvent
      | some cefString =>
        if severity == 7 then CEFOutcome.errEvent cefString input
        else CEFOutcome.debugEvent cefString input

/-! ### Concrete objects used by the closed theorems below -/

/-- A decode environment in which every payload decodes to a fixed request
with reply subject `r1`. -/
def decodeOk : String → Option Request := fun _ => some ⟨"ping", "r1"⟩

/-- A publish environment in which every reply publish succeeds. -/
def noPubErr : String → String → Option String := fun _ _ => none

/-- A handler that succeeds with an empty response body. -/
def okEmptyHandler : Func := fun _ => FuncResult.resp ""

/-- A handler that succeeds with response body `pong`. -/
def pongHandler : Func := fun _ => FuncResult.resp "pong"

/-- A handler that fails with error text `boom`. -/
def boomHandler : Func := fun _ => FuncResult.failed "boom"

/-- A handler used as the `getD` default when indexing handler lists. -/
def noopFunc : Func := fun _ => FuncResult.resp ""

/-- A sample inbound message. -/
def msg0 : Message := ⟨"agent.abc123", "payload"⟩

/-- A handler that fails with error text `bad`. -/
def badHandler : Func := fun _ => FuncResult.failed "bad"

/-- A connection info value used to instantiate `Start` environments. -/
def ciDefault : ConnectionInfo := ⟨"10.0.0.1:4222", "", "", false, false, false, false⟩

/-- A `Start` environment whose connect attempts all fail. -/
def startEnvFail : StartEnv := ⟨Except.ok ciDefault, fun _ => some "refused", none, "abc123"⟩

/-! ## Helper lemmas -/

/-- Counting audit events distributes over trace concatenation. -/
theorem countSev_append (sev : Nat) (a b : List Effect) :
    countSev sev (a ++ b) = countSev sev a + countSev sev b := by
  simp [countSev, List.filter_append]

/-- The callback trace of `f :: fs` is `f`'s trace followed by the trace of `fs`. -/
theorem dispatch_cons (d : String → Option Request) (p : String → String → Option String)
    (m : Message) (f : Func) (fs : List Func) :
    dispatchMessage d p m (f :: fs) = handleNatsMsg d p m f ++ dispatchMessage d p m fs := by
  simp [dispatchMessage, dispatchTraces]

/-- The callback trace of `a ++ b` splits into the traces of `a` and `b`. -/
theorem dispatch_append (d : String → Option Request) (p : String → String → Option String)
    (m : Message) (a b : List Func) :
    dispatchMessage d p m (a ++ b) = dispatchMessage d p m a ++ dispatchMessage d p m b := by
  simp [dispatchMessage, dispatchTraces]

/-- Every handler invocation emits exactly one audit event (severity 1 or 7). -/
theorem handle_audit_once (d : String → Option Request) (p : String → String → Option String)
    (m : Message) (f : Func) :
    countSev 1 (handleNatsMsg d p m f) + countSev 7 (handleNatsMsg d p m f) = 1 := by
  rcases hout : performHandlerWithJSON d m.payload f responseMaxLength with ⟨rb, rq, er⟩
  rcases er with _ | e
  · by_cases hr : 0 < rb.length
    · rcases hp : p rq.replyTo rb with _ | e
      · simp [handleNatsMsg, hout, hr, hp, countSev]
      · simp [handleNatsMsg, hout, hr, hp, countSev]
    · simp [handleNatsMsg, hout, hr, countSev]
  · simp [handleNatsMsg, hout, countSev]

/-- A failing handler invocation produces exactly the severity-7 audit event
carrying the error text, and nothing else. -/
theorem handle_fail_eq (d : String → Option Request) (p : String → String → Option String)
    (m : Message) (f : Func) (e : String)
    (h : (performHandlerWithJSON d m.payload f responseMaxLength).err = some e) :
    handleNatsMsg d p m f = [Effect.audit 7 e] := by
  simp [handleNatsMsg, h]

/-- Unconditional form of `Start`'s registry behaviour: the handler is
appended whatever the environment does. -/
theorem Start_registry_eq (env : StartEnv) (reg : List Func) (f : Func) :
    (Start env reg f).registry = reg ++ [f] := by
  unfold Start
  rcases hci : env.connInfo with e | ci
  · rfl
  · dsimp only
    rcases h : (attemptTry (natsRetryable env.connectErr) natsConnectionMaxRetries).fst with _ | e
    · rcases hs : env.subscribeErr with _ | e2 <;> simp [h, hs, RegisterAdditionalFunc]
    · simp [h, RegisterAdditionalFunc]

/-- Retry loop, all-retry case: with every attempt signalling retry, the loop
starting at index `i` with `K` remaining attempts invokes the operation `K`
times and returns the last error. -/
theorem attemptTryFrom_all_retry (op : Nat → Bool × Option String) :
    ∀ (K i : Nat), 0 < K → (∀ j, j < K → (op (i + j)).fst = true) →
      attemptTryFrom op i K = ((op (i + K - 1)).snd, K) := by
  intro K
  induction K with
  | zero => intro i h _; exact absurd h (by omega)
  | succ n ih =>
    intro i _ hall
    rcases n with _ | m
    · simp [attemptTryFrom]
    · have h0 : (op i).fst = true := by simpa using hall 0 (by omega)
      have ihx := ih (i + 1) (by omega) (fun j hj => by
        simpa [show i + 1 + j = i + (j + 1) by omega] using hall (j + 1) (by omega))
      have hidx : i + 1 + (m + 1) - 1 = i + (m + 1 + 1) - 1 := by omega
      simp only [attemptTryFrom, h0, if_true, ihx, hidx]

/-- Retry loop, first-non-retry case: if the attempts before relative index
`j` all signal retry and attempt `j` does not, the loop stops there with
attempt `j`'s error, having invoked the operation `j + 1` times. -/
theorem attemptTryFrom_stops (op : Nat → Bool × Option String) :
    ∀ (j K i : Nat), j < K → (∀ l, l < j → (op (i + l)).fst = true) →
      (op (i + j)).fst = false →
      attemptTryFrom op i K = ((op (i + j)).snd, j + 1) := by
  intro j
  induction j with
  | zero =>
    intro K i hK _ hstop
    rcases K with _ | _ | r
    · omega
    · simp [attemptTryFrom]
    · simp only [Nat.add_zero] at hstop
      simp [attemptTryFrom, hstop]
  | succ m ih =>
    intro K i hK hall hstop
    rcases K with _ | _ | r
    · omega
    · omega
    · have h0 : (op i).fst = true := by simpa using hall 0 (by omega)
      have ihx := ih (r + 1) (i + 1) (by omega)
        (fun l hl => by
          simpa [show i + 1 + l = i + (l + 1) by omega] using hall (l + 1) (by omega))
        (by simpa [show i + 1 + m = i + (m + 1) by omega] using hstop)
      have hidx : i + 1 + m = i + (m + 1) := by omega
      simp only [attemptTryFrom, h0, if_true, ihx, hidx]

/-- Top-level all-retry corollary for `attemptTry`. -/
theorem attemptTry_all_retry (op : Nat → Bool × Option String) (K : Nat)
    (hK : 0 < K) (h : ∀ i, i < K → (op i).fst = true) :
    attemptTry op K = ((op (K - 1)).snd, K) := by
  have := attemptTryFrom_all_retry op K 0 hK (fun j hj => by simpa using h j hj)
  simpa [attemptTry] using this

/-- Top-level first-non-retry corollary for `attemptTry`. -/
theorem attemptTry_stops (op : Nat → Bool × Option String) (K i : Nat)
    (hK : i < K) (hall : ∀ j, j < i → (op j).fst = true) (hstop : (op i).fst = false) :
    attemptTry op K = ((op i).snd, i + 1) := by
  have := attemptTryFrom_stops op i K 0 hK (fun l hl => by simpa using hall l hl)
    (by simpa using hstop)
  simpa [attemptTry] using this

/-- Folding registrations over the registry appends them in call order. -/
theorem foldl_register (fs : List Func) :
    ∀ init : List Func, List.foldl RegisterAdditionalFunc init fs = init ++ fs := by
  induction fs with
  | nil => intro init; simp
  | cons f t ih => intro init; simp [RegisterAdditionalFunc, ih]

/-- Indexing a mapped handler list: position `i` of the per-handler trace list
is the trace of the handler at position `i`. -/
theorem traces_getD (g : Func → List Effect) :
    ∀ (fs : List Func) (i : Nat), i < fs.length →
      (fs.map g).getD i [] = g (fs.getD i noopFunc) := by
  intro fs
  induction fs with
  | nil => intro i hi; simp at hi
  | cons f t ih =>
    intro i hi
    rcases i with _ | j
    · simp
    · simpa using ih j (by simpa using hi)

/-! ## Claim theorems -/

/-- C1: the source's regular expression leaves its dots unescaped, so each
matches any character; `VerifyPeerCertificate` therefore accepts the common
name `AnatsZbosh-internal`, which contains no literal dot at all and is
rejected by the claimed pattern (with the dot before the trust domain
matching only a literal dot).  The rest of the claimed behaviour holds: an
empty chain list yields a non-nil error, zero-length chains are skipped,
`worker-7.nats.bosh-internal` is accepted and `evil.example.com` rejected. -/
theorem C1_cert_dot_divergence :
    VerifyPeerCertificate [[⟨"AnatsZbosh-internal"⟩]] = none
    ∧ claimedCNMatch "AnatsZbosh-internal" = false
    ∧ VerifyPeerCertificate []
        = some "Server Certificate CommonName does not match *.nats.bosh-internal"
    ∧ VerifyPeerCertificate [[], [⟨"worker-7.nats.bosh-internal"⟩]] = none
    ∧ (VerifyPeerCertificate [[⟨"evil.example.com"⟩]]).isSome = true :=
  ⟨by decide, by decide, rfl, by decide, by decide⟩

/-- C2 counterexample: two registered handlers that both succeed on one
inbound message produce two success-severity audit events, not the claimed
single one; and with a failing first handler the succeeding second handler
still emits a success-severity event, so success severity is not suppressed
for the message as a whole. -/
theorem C2_counterexample :
    countSev 1 (dispatchMessage decodeOk noPubErr msg0 [okEmptyHandler, okEmptyHandler]) = 2
    ∧ ¬ countSev 1 (dispatchMessage decodeOk noPubErr msg0 [okEmptyHandler, okEmptyHandler]) = 1
    ∧ countSev 7 (dispatchMessage decodeOk noPubErr msg0 [boomHandler, okEmptyHandler]) = 1
    ∧ countSev 1 (dispatchMessage decodeOk noPubErr msg0 [boomHandler, okEmptyHandler]) = 1 :=
  ⟨by decide, by decide, by decide, by decide⟩

/-- C2 (amended): audit events are emitted per handler invocation, not per
message.  Every invocation emits exactly one audit event, so a message
dispatched to N handlers yields N audit events in total (success severity
for the invocations that fully succeed, failure severity for the others);
a failing invocation emits the failure-severity event carrying the error
text in place of only its own success event. -/
theorem C2_per_invocation_audit :
    (∀ (d : String → Option Request) (p : String → String → Option String) (m : Message)
        (f : Func),
      countSev 1 (handleNatsMsg d p m f) + countSev 7 (handleNatsMsg d p m f) = 1)
    ∧ (∀ (d : String → Option Request) (p : String → String → Option String) (m : Message)
        (fs : List Func),
      countSev 1 (dispatchMessage d p m fs) + countSev 7 (dispatchMessage d p m fs) = fs.length)
    ∧ (∀ (d : String → Option Request) (p : String → String → Option String) (m : Message)
        (f : Func) (e : String),
      (performHandlerWithJSON d m.payload f responseMaxLength).err = some e →
      handleNatsMsg d p m f = [Effect.audit 7 e]) := by
  refine ⟨handle_audit_once, ?_, fun d p m f e h => handle_fail_eq d p m f e h⟩
  intro d p m fs
  induction fs with
  | nil => simp [dispatchMessage, dispatchTraces, countSev]
  | cons f t ih =>
    have h1 := handle_audit_once d p m f
    simp only [dispatch_cons, countSev_append, List.length_cons]
    omega

/-- C2 witness: the failing-invocation conjunct applied to a concrete failing
handler. -/
theorem C2_per_invocation_audit_witness :
    handleNatsMsg decodeOk noPubErr msg0 badHandler = [Effect.audit 7 "bad"] :=
  C2_per_invocation_audit.2.2 decodeOk noPubErr msg0 badHandler "bad" rfl

/-- C3 counterexample: a handler that succeeds with the non-empty response
`pong` whose reply publish fails with `boom` gets a severity-7 (failure)
audit event and no success-severity event, so the publish failure does
change the audit verdict, contrary to the claim. -/
theorem C3_counterexample :
    handleNatsMsg decodeOk (fun _ _ => some "boom") msg0 pongHandler
      = [Effect.publish "r1" "pong" (some "boom"), Effect.audit 7 "boom"]
    ∧ countSev 1 (handleNatsMsg decodeOk (fun _ _ => some "boom") msg0 pongHandler) = 0
    ∧ countSev 7 (handleNatsMsg decodeOk (fun _ _ => some "boom") msg0 pongHandler) = 1 :=
  ⟨by decide, by decide, by decide⟩

/-- C3 (amended): a successful handler invocation with a non-empty response
publishes the response verbatim to the decoded request's reply-to subject;
if the publish succeeds the success-severity audit event follows, but if the
publish fails a failure-severity audit event carrying the publish error is
emitted instead of the success event. -/
theorem C3_reply_publish :
    ∀ (d : String → Option Request) (p : String → String → Option String) (m : Message)
      (f : Func) (req : Request) (rb : String),
      performHandlerWithJSON d m.payload f responseMaxLength = ⟨rb, req, none⟩ →
      0 < rb.length →
      (p req.replyTo rb = none →
          handleNatsMsg d p m f = [Effect.publish req.replyTo rb none, Effect.audit 1 ""])
      ∧ ∀ e, p req.replyTo rb = some e →
          handleNatsMsg d p m f = [Effect.publish req.replyTo rb (some e), Effect.audit 7 e] := by
  intro d p m f req rb hperf hlen
  constructor
  · intro hp
    simp [handleNatsMsg, hperf, hlen, hp]
  · intro e hp
    simp [handleNatsMsg, hperf, hlen, hp]

/-- C3 witness: the publish-success branch applied to a concrete handler. -/
theorem C3_reply_publish_witness :
    handleNatsMsg decodeOk noPubErr msg0 pongHandler
      = [Effect.publish "r1" "pong" none, Effect.audit 1 ""] :=
  (C3_reply_publish decodeOk noPubErr msg0 pongHandler ⟨"ping", "r1"⟩ "pong" rfl
    (by decide)).1 rfl

/-- C4: the retry executor invokes the operation, retries while it signals
retry and attempts remain, stops at the first non-retry result, and after
exhausting the bound returns the operation's last error; the connection path
uses the bound `natsConnectionMaxRetries = 4` and the publish path in `Send`
uses 3 attempts; the wrapped operations signal retry exactly when the
underlying client call returns an error. -/
theorem C4_retry_strategy :
    (∀ (op : Nat → Bool × Option String) (K : Nat), 0 < K →
        (∀ i, i < K → (op i).fst = true) →
        attemptTry op K = ((op (K - 1)).snd, K))
    ∧ (∀ (op : Nat → Bool × Option String) (K i : Nat), i < K →
        (∀ j, j < i → (op j).fst = true) → (op i).fst = false →
        attemptTry op K = ((op i).snd, i + 1))
    ∧ natsConnectionMaxRetries = 4
    ∧ (∀ (env : StartEnv) (reg : List Func) (f : Func) (ci : ConnectionInfo),
        env.connInfo = Except.ok ci → (∀ i, (env.connectErr i).isSome = true) →
        (Start env reg f).connectAttempts = natsConnectionMaxRetries)
    ∧ (∀ (bytes agentID target topic : String) (pe : Nat → Option String),
        (∀ i, (pe i).isSome = true) →
        (Send (some bytes) agentID target topic pe).snd.length = 3)
    ∧ (∀ (ce : Nat → Option String) (i : Nat), (natsRetryable ce i).fst = (ce i).isSome)
    ∧ (∀ (pe : Nat → Option String) (i : Nat), (publishRetryable pe i).fst = (pe i).isSome) := by
  have hnat : ∀ (ce : Nat → Option String) (i : Nat),
      (natsRetryable ce i).fst = (ce i).isSome := by
    intro ce i
    rcases h : ce i with _ | e <;> simp [natsRetryable, h]
  have hpub : ∀ (pe : Nat → Option String) (i : Nat),
      (publishRetryable pe i).fst = (pe i).isSome := by
    intro pe i
    rcases h : pe i with _ | e <;> simp [publishRetryable, h]
  refine ⟨attemptTry_all_retry, attemptTry_stops, rfl, ?_, ?_, hnat, hpub⟩
  · intro env reg f ci hci hce
    have hr := attemptTry_all_retry (natsRetryable env.connectErr) natsConnectionMaxRetries
      (by decide) (fun i _ => by rw [hnat]; exact hce i)
    unfold Start
    rw [hci]
    dsimp only
    rw [hr]
    obtain ⟨e3, h3⟩ := Option.isSome_iff_exists.mp (hce (natsConnectionMaxRetries - 1))
    simp [natsRetryable, h3]
  · intro bytes agentID target topic pe hpe
    have hr := attemptTry_all_retry (publishRetryable pe) 3
      (by decide) (fun i _ => by rw [hpub]; exact hpe i)
    simp [Send, hr]

/-- C4 witness: an operation that always signals retry with bound 2 is
invoked exactly twice and the last error is returned. -/
theorem C4_retry_strategy_witness :
    attemptTry (fun _ => (true, some "e")) 2 = (some "e", 2) :=
  C4_retry_strategy.1 (fun _ => (true, some "e")) 2 (by decide) (fun i _ => rfl)

/-- C5: handlers registered through `Start` or `RegisterAdditionalFunc`
accumulate in registration order, and on one delivered inbound message the
subscription callback invokes each of the N registered handlers exactly once,
in that order: the per-handler trace list has one entry per handler, entry
`i` is exactly handler `i`'s invocation, and the whole callback trace is
their concatenation. -/
theorem C5_handlers_once_in_order :
    (∀ (init fs : List Func), List.foldl RegisterAdditionalFunc init fs = init ++ fs)
    ∧ (∀ (env : StartEnv) (reg : List Func) (f : Func),
        (Start env reg f).registry = RegisterAdditionalFunc reg f)
    ∧ (∀ (d : String → Option Request) (p : String → String → Option String) (m : Message)
        (fs : List Func), (dispatchTraces d p m fs).length = fs.length)
    ∧ (∀ (d : String → Option Request) (p : String → String → Option String) (m : Message)
        (fs : List Func) (i : Nat), i < fs.length →
        (dispatchTraces d p m fs).getD i [] = handleNatsMsg d p m (fs.getD i noopFunc))
    ∧ (∀ (d : String → Option Request) (p : String → String → Option String) (m : Message)
        (fs : List Func), dispatchMessage d p m fs = (dispatchTraces d p m fs).flatten) := by
  refine ⟨fun init fs => foldl_register fs init, ?_, ?_, ?_, fun d p m fs => rfl⟩
  · intro env reg f
    rw [Start_registry_eq]
    rfl
  · intro d p m fs
    simp [dispatchTraces]
  · intro d p m fs i hi
    exact traces_getD (fun f => handleNatsMsg d p m f) fs i hi

/-- C5 witness: with two concrete registered handlers, position 1 of the
per-handler trace list is the second handler's invocation. -/
theorem C5_handlers_once_in_order_witness :
    (dispatchTraces decodeOk noPubErr msg0 [pongHandler, boomHandler]).getD 1 []
      = handleNatsMsg decodeOk noPubErr msg0 ([pongHandler, boomHandler].getD 1 noopFunc) :=
  C5_handlers_once_in_order.2.2.2.1 decodeOk noPubErr msg0 [pongHandler, boomHandler] 1
    (by decide)

/-- C6: the subscription subject is exactly `agent.<agentID>`, the subject
constructed by `Send` is exactly `<target>.agent.<topic>.<agentID>` with the
marshalled payload published unchanged, and the reply to a successful
handler invocation is published to the decoded request's reply-to subject
verbatim. -/
theorem C6_wire_subjects :
    (∀ (bytes agentID target topic : String) (pe : Nat → Option String),
        pe 0 = none →
        Send (some bytes) agentID target topic pe
          = (none, [(target ++ ".agent." ++ topic ++ "." ++ agentID, bytes)]))
    ∧ (∀ (env : StartEnv) (reg : List Func) (f : Func) (s : String),
        (Start env reg f).outcome = Except.ok s → s = "agent." ++ env.agentID)
    ∧ (∀ (d : String → Option Request) (p : String → String → Option String) (m : Message)
        (f : Func) (req : Request) (rb : String),
        performHandlerWithJSON d m.payload f responseMaxLength = ⟨rb, req, none⟩ →
        0 < rb.length →
        (handleNatsMsg d p m f).head? = some (Effect.publish req.replyTo rb (p req.replyTo rb))) := by
  refine ⟨?_, ?_, ?_⟩
  · intro bytes agentID target topic pe hpe
    have h0 : (publishRetryable pe 0).fst = false := by simp [publishRetryable, hpe]
    have hr := attemptTry_stops (publishRetryable pe) 3 0 (by decide) (fun j hj => by omega) h0
    simp [Send, hr, publishRetryable, hpe]
  · intro env reg f s hs
    unfold Start at hs
    rcases hci : env.connInfo with e | ci <;> rw [hci] at hs
    · simp at hs
    · dsimp only at hs
      rcases h : (attemptTry (natsRetryable env.connectErr) natsConnectionMaxRetries).fst
        with _ | e <;> rw [h] at hs
      · rcases hsub : env.subscribeErr with _ | e2 <;> rw [hsub] at hs
        · simpa using hs.symm
        · simp at hs
      · simp at hs
  · intro d p m f req rb hperf hlen
    rcases hp : p req.replyTo rb with _ | e <;> simp [handleNatsMsg, hperf, hlen, hp]

/-- C6 witness: `Send` of the payload bytes of the JSON object with field x
equal to 1, from agent `abc123` to target `director` and topic `heartbeat`,
publishes to `director.agent.heartbeat.abc123` with that payload exactly. -/
theorem C6_wire_subjects_witness :
    Send (some "\x7b\"x\":1\x7d") "abc123" "director" "heartbeat" (fun _ => none)
      = (none, [("director.agent.heartbeat.abc123", "\x7b\"x\":1\x7d")]) := by
  have h := C6_wire_subjects.1 "\x7b\"x\":1\x7d" "abc123" "director" "heartbeat"
    (fun _ => none) rfl
  simpa using h

/-- C7 counterexample: a URL with user-info `nats:` — username present,
password present but empty — makes `getConnectionInfo` succeed and copy the
empty password, so resolution does not require a *non-empty* password as the
claim states. -/
theorem C7_counterexample :
    getConnectionInfo (some ⟨"10.0.0.1:4222", some ⟨"nats", some ""⟩⟩) false ⟨"", "", ""⟩
        (fun _ => true) (fun _ _ => true)
      = Except.ok ⟨"10.0.0.1:4222", "nats", "", false, false, false, false⟩ := rfl

/-- C7 (amended): when the URL carries embedded user-info, a *set* password
is required (it may be empty): a present username with an absent password
makes `getConnectionInfo` fail closed with the credential error, and when a
password is set both username and password are copied into the
`ConnectionInfo`. -/
theorem C7_password_presence :
    ∀ (host un : String) (cert : MbusCertData) (aOk : String → Bool)
      (kOk : String → String → Bool),
      getConnectionInfo (some ⟨host, some ⟨un, none⟩⟩) false cert aOk kOk
        = Except.error "No password set for connection"
      ∧ ∀ pw, getConnectionInfo (some ⟨host, some ⟨un, some pw⟩⟩) false cert aOk kOk
        = Except.ok ⟨host, un, pw, false, false, false, false⟩ := by
  intro host un cert aOk kOk
  exact ⟨rfl, fun pw => rfl⟩

/-- C8: when decoding the payload or running handler `f` fails with error
`e`, the invocation emits exactly the severity-7 audit event carrying `e`
(in particular no reply publish), the handlers after `f` in the registry are
still invoked for the same message, and the callback propagates nothing: its
whole trace is the surrounding handlers' traces around that single event. -/
theorem C8_failure_contained :
    ∀ (d : String → Option Request) (p : String → String → Option String) (m : Message)
      (f : Func) (before after : List Func) (e : String),
      (performHandlerWithJSON d m.payload f responseMaxLength).err = some e →
      handleNatsMsg d p m f = [Effect.audit 7 e]
      ∧ dispatchMessage d p m (before ++ f :: after)
          = dispatchMessage d p m before ++ Effect.audit 7 e :: dispatchMessage d p m after := by
  intro d p m f before after e h
  have hf := handle_fail_eq d p m f e h
  refine ⟨hf, ?_⟩
  rw [dispatch_append, dispatch_cons, hf]
  simp

/-- C8 witness: a concrete failing handler between two succeeding ones. -/
theorem C8_failure_contained_witness :
    handleNatsMsg decodeOk noPubErr msg0 boomHandler = [Effect.audit 7 "boom"]
    ∧ dispatchMessage decodeOk noPubErr msg0 ([pongHandler] ++ boomHandler :: [okEmptyHandler])
        = dispatchMessage decodeOk noPubErr msg0 [pongHandler]
          ++ Effect.audit 7 "boom" :: dispatchMessage decodeOk noPubErr msg0 [okEmptyHandler] :=
  C8_failure_contained decodeOk noPubErr msg0 boomHandler [pongHandler] [okEmptyHandler]
    "boom" rfl

/-- C9: `generateCEFLog` is not panic-free — with a bus URL whose host
carries no port (here `nats://127.0.0.1`, parsed host `127.0.0.1`) the
unguarded `hostSplit[1]` slice access panics — while the claim's second
part holds: when the payload fails to parse as JSON the event is still
emitted, with empty method and reply-to fields. -/
theorem C9_audit_panic :
    generateCEFLog (fun _ => some "127.0.0.1") "nats://127.0.0.1" (fun _ => none)
        (fun _ => some "cef") msg0 1 "" = CEFOutcome.panicked
    ∧ generateCEFLog (fun _ => some "10.0.0.1:4222") "nats://10.0.0.1:4222" (fun _ => none)
        (fun _ => some "cef") msg0 1 ""
        = CEFOutcome.debugEvent "cef" ⟨"10.0.0.1", "4222", "", "", 1, "agent.abc123", ""⟩ :=
  ⟨by decide, by decide⟩

/-- C10: `Start` appends its handler argument to the registry whatever the
environment then does (so the handler stays registered when `Start` fails);
registrations only ever append; two `Start` calls with the same handler
leave it registered twice; and the subscription callback then invokes it
twice per delivered message. -/
theorem C10_registry_append_only :
    (∀ (env : StartEnv) (reg : List Func) (f : Func), (Start env reg f).registry = reg ++ [f])
    ∧ (∀ (reg : List Func) (f : Func), RegisterAdditionalFunc reg f = reg ++ [f])
    ∧ (∀ (env1 env2 : StartEnv) (reg : List Func) (f : Func),
        (Start env2 (Start env1 reg f).registry f).registry = reg ++ [f, f])
    ∧ (∀ (d : String → Option Request) (p : String → String → Option String) (m : Message)
        (reg : List Func) (f : Func),
        dispatchTraces d p m (reg ++ [f, f])
          = dispatchTraces d p m reg ++ [handleNatsMsg d p m f, handleNatsMsg d p m f]) := by
  refine ⟨Start_registry_eq, fun reg f => rfl, ?_, ?_⟩
  · intro env1 env2 reg f
    rw [Start_registry_eq, Start_registry_eq]
    simp
  · intro d p m reg f
    simp [dispatchTraces]

end Mbus

